import Mathlib

/-!
Verification of the `cfgloader` configuration-loading library.

The Rust source (`src/lib.rs`) is shallowly embedded: filesystem state is an
explicit record (`FS`), paths are component lists with the Rust
`Path::with_extension` semantics on the final component, and the external
`polyglot` (de)serialization collaborator is a pair of abstract functions.
-/

namespace Cfgloader

/-- The serialization format tag (`polyglot::Format`). -/
inductive Format where
  | toml
  | json
  | yaml
deriving DecidableEq, Repr

/-- Abstract OS I/O error (`std::io::Error`), carried opaquely in error
variants. -/
inductive IOError where
  | notFound
  | other (code : Nat)
deriving DecidableEq, Repr

/-- Abstract error of the external format library (`polyglot::Error`). -/
inductive PolyglotError where
  | mk (code : Nat)
deriving DecidableEq, Repr

/-- The error enum of the library (`Error` in `src/lib.rs`), one variant per
source variant, each wrapped OS/format error keeping its `source` payload. -/
inductive Error where
  | unknownConfigDirectory
  | failedToCreateConfigDir (source : IOError)
  | failedToCreateDefaultConfigFile (source : IOError)
  | failedToSerializeDefaultConfig (source : PolyglotError)
  | failedToFindConfigFile
  | failedToOpenConfigFile (source : IOError)
  | failedToDeserializeConfigFile (source : PolyglotError)
deriving DecidableEq, Repr

/-- A filesystem path, as the list of its components
(`dirs::config_dir().join(namespace).join(name)` only ever appends
single components). -/
structure Path where
  components : List String
deriving DecidableEq, Repr

/-- `Path::join` with a single-component (separator-free) argument. -/
def Path.join (p : Path) (c : String) : Path :=
  ⟨p.components ++ [c]⟩

/-- Split a file name at its last dot, Rust-style: the result is
`some (stem, extension)` exactly when the Rust `Path::extension` is `Some`,
i.e. there is a dot and the part before the last dot is nonempty. -/
def extSplit (s : String) : Option (List Char × List Char) :=
  let cs := s.data
  let after := (cs.reverse.takeWhile (fun c => c ≠ '.')).reverse
  if after.length < cs.length then
    let stemLen := cs.length - after.length - 1
    if stemLen = 0 then none else some (cs.take stemLen, after)
  else none

/-- The Rust `file_stem`: the part of the file name before the last dot, or
the whole name when there is no extension. -/
def fileStem (s : String) : String :=
  match extSplit s with
  | some (stem, _) => String.mk stem
  | none => s

/-- The Rust `with_extension` on a file name, for a nonempty new extension:
replace the extension if one exists, else append `.ext`. -/
def strWithExtension (s ext : String) : String :=
  match extSplit s with
  | some (stem, _) => String.mk stem ++ "." ++ ext
  | none => s ++ "." ++ ext

/-- `PathBuf::with_extension`: act on the final component. -/
def Path.withExtension (p : Path) (ext : String) : Path :=
  match p.components.getLast? with
  | none => p
  | some last => ⟨p.components.dropLast ++ [strWithExtension last ext]⟩

/-- The filesystem state visible to one call: the resolved per-user config
root (if the platform has one), the files on disk with their contents (of
abstract byte type `C`), the directories on disk, and oracles giving the
OS error with which `create_dir_all` / `File::create` / `File::open`
fail at a path (or `none` when the call succeeds). -/
structure FS (C : Type) where
  configDir? : Option Path
  files : Path → Option C
  dirs : Path → Bool
  emptyFile : C
  createDirErr : Path → Option IOError
  createFileErr : Path → Option IOError
  openErr : Path → Option IOError

/-- `Path::exists` for the probed candidate file paths. -/
def pathExists (fs : FS C) (p : Path) : Bool :=
  (fs.files p).isSome

/-- `std::fs::File::open` followed by reading the whole content. -/
def fsOpen (fs : FS C) (p : Path) : Except IOError C :=
  match fs.openErr p with
  | some e => Except.error e
  | none =>
    match fs.files p with
    | some c => Except.ok c
    | none => Except.error IOError.notFound

/-- `std::fs::create_dir_all`: on success, the directory and all its
ancestors exist afterwards. -/
def createDirAll (fs : FS C) (p : Path) : Except IOError (FS C) :=
  match fs.createDirErr p with
  | some e => Except.error e
  | none =>
    Except.ok { fs with dirs := fun q => fs.dirs q || q.components.isPrefixOf p.components }

/-- `std::fs::File::create`: on success the file exists, truncated to
empty content. -/
def fileCreate (fs : FS C) (p : Path) : Except IOError (FS C) :=
  match fs.createFileErr p with
  | some e => Except.error e
  | none =>
    Except.ok { fs with files := fun q => if q = p then some fs.emptyFile else fs.files q }

/-- Replace the content of a file on disk. -/
def FS.write (fs : FS C) (p : Path) (c : C) : FS C :=
  { fs with files := fun q => if q = p then some c else fs.files q }

/-- The external `polyglot` collaborator for a caller type `T` and content
type `C`: `from_reader` and `to_writer`, both fallible, format-directed. -/
structure Polyglot (T C : Type) where
  fromReader : C → Format → Except PolyglotError T
  toWriter : T → Format → Except PolyglotError C

/-- `find_config_file` (src/lib.rs:47-62): resolve the config root, build
`root/namespace/name`, probe `.toml`, `.json`, `.yml` in that order, and
return the first existing candidate with its format tag. -/
def find_config_file (fs : FS C) (ns name : String) :
    Except Error (Option (Path × Format)) :=
  match fs.configDir? with
  | none => Except.error Error.unknownConfigDirectory
  | some config_dir =>
    let file_path := (config_dir.join ns).join name
    let probe : Option (String × Format) :=
      if pathExists fs (file_path.withExtension "toml") then some ("toml", Format.toml)
      else if pathExists fs (file_path.withExtension "json") then some ("json", Format.json)
      else if pathExists fs (file_path.withExtension "yml") then some ("yml", Format.yaml)
      else none
    match probe with
    | none => Except.ok none
    | some (ext, format) => Except.ok (some (file_path.withExtension ext, format))

/-- `deser` (src/lib.rs:42-45): open the file, then deserialize with the
format tag, wrapping each failure in its error variant. -/
def deser (P : Polyglot T C) (fs : FS C) (file : Path) (format : Format) :
    Except Error T :=
  match fsOpen fs file with
  | Except.error e => Except.error (Error.failedToOpenConfigFile e)
  | Except.ok c =>
    match P.fromReader c format with
    | Except.error e => Except.error (Error.failedToDeserializeConfigFile e)
    | Except.ok v => Except.ok v

/-- `load` (src/lib.rs:64-68). Pure read: returns no new state. -/
def load (P : Polyglot T C) (fs : FS C) (ns name : String) : Except Error T :=
  match find_config_file fs ns name with
  | Except.error e => Except.error e
  | Except.ok none => Except.error Error.failedToFindConfigFile
  | Except.ok (some (file_path, format)) => deser P fs file_path format

/-- `load_or_default` (src/lib.rs:70-89). Returns the result together with
the filesystem state after the call (the default-writing path creates a
directory and a file). -/
def load_or_default (P : Polyglot T C) (fs : FS C) (ns name : String) (default : T) :
    Except Error T × FS C :=
  match find_config_file fs ns name with
  | Except.error e => (Except.error e, fs)
  | Except.ok (some (file, format)) => (deser P fs file format, fs)
  | Except.ok none =>
    match fs.configDir? with
    | none => (Except.error Error.unknownConfigDirectory, fs)
    | some config_dir =>
      match createDirAll fs (config_dir.join ns) with
      | Except.error e => (Except.error (Error.failedToCreateConfigDir e), fs)
      | Except.ok fs1 =>
        match fileCreate fs1 (((config_dir.join ns).join name).withExtension "toml") with
        | Except.error e => (Except.error (Error.failedToCreateDefaultConfigFile e), fs1)
        | Except.ok fs2 =>
          match P.toWriter default Format.toml with
          | Except.error e => (Except.error (Error.failedToSerializeDefaultConfig e), fs2)
          | Except.ok c =>
            (Except.ok default, fs2.write (((config_dir.join ns).join name).withExtension "toml") c)

/-! Concrete instantiations used to evaluate the theorems on explicit
inputs: caller type `T := Nat`, content type `C := Nat`, a collaborator
that serializes a `Nat` to itself. -/

/-- A concrete `polyglot` collaborator: the identity on `Nat` content. -/
def polyW : Polyglot Nat Nat :=
  ⟨fun c _ => Except.ok c, fun t _ => Except.ok t⟩

/-- A concrete `polyglot` collaborator whose TOML serializer always fails. -/
def polyFailW : Polyglot Nat Nat :=
  ⟨fun c _ => Except.ok c, fun _ _ => Except.error (PolyglotError.mk 3)⟩

/-- A concrete resolved config root. -/
def rootW : Path := ⟨["cfg"]⟩

/-- A concrete filesystem with a resolved config root and no files. -/
def fsEmptyW : FS Nat where
  configDir? := some rootW
  files := fun _ => none
  dirs := fun _ => false
  emptyFile := 0
  createDirErr := fun _ => none
  createFileErr := fun _ => none
  openErr := fun _ => none

/-- A concrete filesystem where both `cfg/app/conf.toml` and
`cfg/app/conf.json` exist, with distinct contents. -/
def fsBothW : FS Nat :=
  { fsEmptyW with
    files := fun q =>
      if q = Path.mk ["cfg", "app", "conf.toml"] then some 7
      else if q = Path.mk ["cfg", "app", "conf.json"] then some 8
      else none }

/-- A concrete filesystem with no resolvable config root. -/
def fsNoRootW : FS Nat :=
  { fsEmptyW with configDir? := none }

/-! Shared lemmas about the locator and the two loading operations. -/

theorem find_toml_of_exists {C : Type} (fs : FS C) (ns name : String) (root : Path)
    (hr : fs.configDir? = some root)
    (ht : pathExists fs (((root.join ns).join name).withExtension "toml") = true) :
    find_config_file fs ns name =
      Except.ok (some (((root.join ns).join name).withExtension "toml", Format.toml)) := by
  simp [find_config_file, hr, ht]

theorem find_json_of_exists {C : Type} (fs : FS C) (ns name : String) (root : Path)
    (hr : fs.configDir? = some root)
    (ht : pathExists fs (((root.join ns).join name).withExtension "toml") = false)
    (hj : pathExists fs (((root.join ns).join name).withExtension "json") = true) :
    find_config_file fs ns name =
      Except.ok (some (((root.join ns).join name).withExtension "json", Format.json)) := by
  simp [find_config_file, hr, ht, hj]

theorem find_yml_of_exists {C : Type} (fs : FS C) (ns name : String) (root : Path)
    (hr : fs.configDir? = some root)
    (ht : pathExists fs (((root.join ns).join name).withExtension "toml") = false)
    (hj : pathExists fs (((root.join ns).join name).withExtension "json") = false)
    (hy : pathExists fs (((root.join ns).join name).withExtension "yml") = true) :
    find_config_file fs ns name =
      Except.ok (some (((root.join ns).join name).withExtension "yml", Format.yaml)) := by
  simp [find_config_file, hr, ht, hj, hy]

theorem find_none_of_absent {C : Type} (fs : FS C) (ns name : String) (root : Path)
    (hr : fs.configDir? = some root)
    (ht : pathExists fs (((root.join ns).join name).withExtension "toml") = false)
    (hj : pathExists fs (((root.join ns).join name).withExtension "json") = false)
    (hy : pathExists fs (((root.join ns).join name).withExtension "yml") = false) :
    find_config_file fs ns name = Except.ok none := by
  simp [find_config_file, hr, ht, hj, hy]

theorem load_eq_of_find {T C : Type} (P : Polyglot T C) (fs : FS C) (ns name : String)
    (file : Path) (format : Format)
    (h : find_config_file fs ns name = Except.ok (some (file, format))) :
    load P fs ns name = deser P fs file format := by
  unfold load
  rw [h]

theorem lod_eq_of_find {T C : Type} (P : Polyglot T C) (fs : FS C) (ns name : String)
    (d : T) (file : Path) (format : Format)
    (h : find_config_file fs ns name = Except.ok (some (file, format))) :
    load_or_default P fs ns name d = (deser P fs file format, fs) := by
  unfold load_or_default
  rw [h]

theorem lod_success {T C : Type} (P : Polyglot T C) (fs : FS C) (ns name : String)
    (root : Path) (d : T) (c : C)
    (hr : fs.configDir? = some root)
    (ht : pathExists fs (((root.join ns).join name).withExtension "toml") = false)
    (hj : pathExists fs (((root.join ns).join name).withExtension "json") = false)
    (hy : pathExists fs (((root.join ns).join name).withExtension "yml") = false)
    (hdir : fs.createDirErr (root.join ns) = none)
    (hfile : fs.createFileErr (((root.join ns).join name).withExtension "toml") = none)
    (hser : P.toWriter d Format.toml = Except.ok c) :
    load_or_default P fs ns name d =
      (Except.ok d,
        FS.write
          { fs with
            dirs := fun q => fs.dirs q || q.components.isPrefixOf (root.join ns).components,
            files := fun q =>
              if q = ((root.join ns).join name).withExtension "toml" then some fs.emptyFile
              else fs.files q }
          (((root.join ns).join name).withExtension "toml") c) := by
  unfold load_or_default
  rw [find_none_of_absent fs ns name root hr ht hj hy, hr]
  simp only [createDirAll, hdir, fileCreate, hfile, hser, hr]

theorem deser_of_content {T C : Type} (P : Polyglot T C) (fs : FS C) (p : Path)
    (fmt : Format) (c : C) (d : T)
    (hc : fs.files p = some c) (ho : fs.openErr p = none)
    (hd : P.fromReader c fmt = Except.ok d) :
    deser P fs p fmt = Except.ok d := by
  unfold deser fsOpen
  rw [ho, hc]
  simp [hd]

theorem load_of_toml_content {T C : Type} (P : Polyglot T C) (fs : FS C)
    (ns name : String) (root : Path) (c : C) (d : T)
    (hr : fs.configDir? = some root)
    (hc : fs.files (((root.join ns).join name).withExtension "toml") = some c)
    (ho : fs.openErr (((root.join ns).join name).withExtension "toml") = none)
    (hd : P.fromReader c Format.toml = Except.ok d) :
    load P fs ns name = Except.ok d := by
  have ht : pathExists fs (((root.join ns).join name).withExtension "toml") = true := by
    simp [pathExists, hc]
  rw [load_eq_of_find P fs ns name _ _ (find_toml_of_exists fs ns name root hr ht)]
  exact deser_of_content P fs _ Format.toml c d hc ho hd

/-! The claims. -/

/-- C1: the locator probes the `.toml`, `.json`, `.yml` candidates in that
fixed priority order and returns the first existing match; in particular
whenever the TOML candidate exists (e.g. both `name.toml` and `name.json`
exist), `load` and `load_or_default` read the TOML file and ignore the
JSON file. -/
theorem c1_extension_priority {T C : Type} (P : Polyglot T C) (fs : FS C)
    (ns name : String) (root : Path) (hr : fs.configDir? = some root) :
    (pathExists fs (((root.join ns).join name).withExtension "toml") = true →
      find_config_file fs ns name =
        Except.ok (some (((root.join ns).join name).withExtension "toml", Format.toml)) ∧
      load P fs ns name =
        deser P fs (((root.join ns).join name).withExtension "toml") Format.toml ∧
      ∀ d : T, load_or_default P fs ns name d =
        (deser P fs (((root.join ns).join name).withExtension "toml") Format.toml, fs)) ∧
    (pathExists fs (((root.join ns).join name).withExtension "toml") = false →
      pathExists fs (((root.join ns).join name).withExtension "json") = true →
      find_config_file fs ns name =
        Except.ok (some (((root.join ns).join name).withExtension "json", Format.json))) ∧
    (pathExists fs (((root.join ns).join name).withExtension "toml") = false →
      pathExists fs (((root.join ns).join name).withExtension "json") = false →
      pathExists fs (((root.join ns).join name).withExtension "yml") = true →
      find_config_file fs ns name =
        Except.ok (some (((root.join ns).join name).withExtension "yml", Format.yaml))) ∧
    (pathExists fs (((root.join ns).join name).withExtension "toml") = false →
      pathExists fs (((root.join ns).join name).withExtension "json") = false →
      pathExists fs (((root.join ns).join name).withExtension "yml") = false →
      find_config_file fs ns name = Except.ok none) := by
  refine ⟨fun ht => ?_, fun ht hj => ?_, fun ht hj hy => ?_, fun ht hj hy => ?_⟩
  · have hf := find_toml_of_exists fs ns name root hr ht
    exact ⟨hf, load_eq_of_find P fs ns name _ _ hf,
      fun d => lod_eq_of_find P fs ns name d _ _ hf⟩
  · exact find_json_of_exists fs ns name root hr ht hj
  · exact find_yml_of_exists fs ns name root hr ht hj hy
  · exact find_none_of_absent fs ns name root hr ht hj hy

/-- Witness for C1: on the concrete filesystem where both
`cfg/app/conf.toml` (content 7) and `cfg/app/conf.json` (content 8) exist,
the locator returns the TOML candidate and `load` returns 7. -/
theorem c1_extension_priority_witness :
    fsBothW.configDir? = some rootW ∧
    pathExists fsBothW (((rootW.join "app").join "conf").withExtension "toml") = true ∧
    pathExists fsBothW (((rootW.join "app").join "conf").withExtension "json") = true ∧
    find_config_file fsBothW "app" "conf" =
      Except.ok (some (((rootW.join "app").join "conf").withExtension "toml", Format.toml)) ∧
    load polyW fsBothW "app" "conf" = Except.ok 7 := by
  have h := c1_extension_priority polyW fsBothW "app" "conf" rootW rfl
  have h1 := h.1 (by decide)
  exact ⟨rfl, by decide, by decide, h1.1, h1.2.1.trans (by rfl)⟩

/-- C2: when the config root is resolvable and none of the three candidate
files exists, `load` returns `FailedToFindConfigFile`. -/
theorem c2_load_missing_file {T C : Type} (P : Polyglot T C) (fs : FS C)
    (ns name : String) (root : Path)
    (hr : fs.configDir? = some root)
    (ht : pathExists fs (((root.join ns).join name).withExtension "toml") = false)
    (hj : pathExists fs (((root.join ns).join name).withExtension "json") = false)
    (hy : pathExists fs (((root.join ns).join name).withExtension "yml") = false) :
    load P fs ns name = Except.error Error.failedToFindConfigFile := by
  unfold load
  rw [find_none_of_absent fs ns name root hr ht hj hy]

/-- Witness for C2: on the concrete empty filesystem, `load` fails with
`FailedToFindConfigFile`. -/
theorem c2_load_missing_file_witness :
    load polyW fsEmptyW "app" "conf" = Except.error Error.failedToFindConfigFile :=
  c2_load_missing_file polyW fsEmptyW "app" "conf" rootW rfl
    (by decide) (by decide) (by decide)

/-- C4: whenever the locator finds an existing config file,
`load_or_default` returns exactly the result of `load`, for every default,
and leaves the filesystem unchanged. -/
theorem c4_lod_refines_load {T C : Type} (P : Polyglot T C) (fs : FS C)
    (ns name : String) (file : Path) (format : Format) (d : T)
    (h : find_config_file fs ns name = Except.ok (some (file, format))) :
    (load_or_default P fs ns name d).1 = load P fs ns name ∧
    (load_or_default P fs ns name d).2 = fs := by
  rw [lod_eq_of_find P fs ns name d file format h, load_eq_of_find P fs ns name file format h]
  exact ⟨rfl, rfl⟩

/-- Witness for C4: on the concrete filesystem with an existing TOML file,
`load_or_default` with default 99 agrees with `load`. -/
theorem c4_lod_refines_load_witness :
    find_config_file fsBothW "app" "conf" =
      Except.ok (some (((rootW.join "app").join "conf").withExtension "toml", Format.toml)) ∧
    (load_or_default polyW fsBothW "app" "conf" 99).1 = load polyW fsBothW "app" "conf" ∧
    (load_or_default polyW fsBothW "app" "conf" 99).2 = fsBothW :=
  ⟨by rfl,
    c4_lod_refines_load polyW fsBothW "app" "conf"
      (((rootW.join "app").join "conf").withExtension "toml") Format.toml 99 (by rfl)⟩

/-- C5: when the platform exposes no resolvable config root, both `load`
and `load_or_default` fail with `UnknownConfigDirectory`, for every
namespace, name and default. -/
theorem c5_unknown_config_directory {T C : Type} (P : Polyglot T C) (fs : FS C)
    (ns name : String) (d : T) (hnone : fs.configDir? = none) :
    load P fs ns name = Except.error Error.unknownConfigDirectory ∧
    load_or_default P fs ns name d = (Except.error Error.unknownConfigDirectory, fs) := by
  have hf : find_config_file fs ns name = Except.error Error.unknownConfigDirectory := by
    unfold find_config_file
    rw [hnone]
  constructor
  · unfold load
    rw [hf]
  · unfold load_or_default
    rw [hf]

/-- Witness for C5: on the concrete filesystem with no config root, both
operations fail with `UnknownConfigDirectory`. -/
theorem c5_unknown_config_directory_witness :
    load polyW fsNoRootW "app" "conf" = Except.error Error.unknownConfigDirectory ∧
    load_or_default polyW fsNoRootW "app" "conf" 42 =
      (Except.error Error.unknownConfigDirectory, fsNoRootW) :=
  c5_unknown_config_directory polyW fsNoRootW "app" "conf" 42 rfl

/-- C3: with no existing config file and every filesystem and serialization
step succeeding, `load_or_default` returns the default, the file
`root/namespace/name.toml` afterwards holds the serialized default, and the
namespace directory together with all its ancestors exists afterwards. -/
theorem c3_writes_default {T C : Type} (P : Polyglot T C) (fs : FS C)
    (ns name : String) (root : Path) (d : T) (c : C)
    (hr : fs.configDir? = some root)
    (ht : pathExists fs (((root.join ns).join name).withExtension "toml") = false)
    (hj : pathExists fs (((root.join ns).join name).withExtension "json") = false)
    (hy : pathExists fs (((root.join ns).join name).withExtension "yml") = false)
    (hdir : fs.createDirErr (root.join ns) = none)
    (hfile : fs.createFileErr (((root.join ns).join name).withExtension "toml") = none)
    (hser : P.toWriter d Format.toml = Except.ok c) :
    (load_or_default P fs ns name d).1 = Except.ok d ∧
    (load_or_default P fs ns name d).2.files (((root.join ns).join name).withExtension "toml")
      = some c ∧
    ∀ q : Path, q.components.isPrefixOf (root.join ns).components = true →
      (load_or_default P fs ns name d).2.dirs q = true := by
  rw [lod_success P fs ns name root d c hr ht hj hy hdir hfile hser]
  refine ⟨rfl, by simp [FS.write], fun q hq => by simp [FS.write, hq]⟩

/-- Witness for C3: on the concrete empty filesystem with default 5, the
call returns 5, writes content 5 at `cfg/app/conf.toml`, and creates the
directory `cfg/app`. -/
theorem c3_writes_default_witness :
    (load_or_default polyW fsEmptyW "app" "conf" 5).1 = Except.ok 5 ∧
    (load_or_default polyW fsEmptyW "app" "conf" 5).2.files
      (((rootW.join "app").join "conf").withExtension "toml") = some 5 ∧
    (load_or_default polyW fsEmptyW "app" "conf" 5).2.dirs (rootW.join "app") = true := by
  have h := c3_writes_default polyW fsEmptyW "app" "conf" rootW 5 5 rfl
    (by decide) (by decide) (by decide) rfl rfl rfl
  exact ⟨h.1, h.2.1, h.2.2 (rootW.join "app") (by decide)⟩

/-- C6: round-trip — with no pre-existing config file, after
`load_or_default` writes the serialized default, a subsequent `load`
returns the default again (given that the collaborator deserializes the
serialized content back to the default). -/
theorem c6_roundtrip {T C : Type} (P : Polyglot T C) (fs : FS C)
    (ns name : String) (root : Path) (d : T) (c : C)
    (hr : fs.configDir? = some root)
    (ht : pathExists fs (((root.join ns).join name).withExtension "toml") = false)
    (hj : pathExists fs (((root.join ns).join name).withExtension "json") = false)
    (hy : pathExists fs (((root.join ns).join name).withExtension "yml") = false)
    (hdir : fs.createDirErr (root.join ns) = none)
    (hfile : fs.createFileErr (((root.join ns).join name).withExtension "toml") = none)
    (hser : P.toWriter d Format.toml = Except.ok c)
    (ho : fs.openErr (((root.join ns).join name).withExtension "toml") = none)
    (hrt : P.fromReader c Format.toml = Except.ok d) :
    (load_or_default P fs ns name d).1 = Except.ok d ∧
    load P (load_or_default P fs ns name d).2 ns name = Except.ok d := by
  rw [lod_success P fs ns name root d c hr ht hj hy hdir hfile hser]
  refine ⟨rfl, ?_⟩
  apply load_of_toml_content P _ ns name root c d
  · simp [FS.write, hr]
  · simp [FS.write]
  · simp [FS.write, ho]
  · exact hrt

/-- Witness for C6: on the concrete empty filesystem, writing default 5 and
loading again returns 5. -/
theorem c6_roundtrip_witness :
    (load_or_default polyW fsEmptyW "app" "conf" 5).1 = Except.ok 5 ∧
    load polyW (load_or_default polyW fsEmptyW "app" "conf" 5).2 "app" "conf" = Except.ok 5 :=
  c6_roundtrip polyW fsEmptyW "app" "conf" rootW 5 5 rfl
    (by decide) (by decide) (by decide) rfl rfl rfl rfl rfl

/-- C7: after `load_or_default` has written a default `d1`, a second
`load_or_default` with a different default `d2` returns the persisted value
`d1`, not `d2`, and leaves the filesystem unchanged (no further writes). -/
theorem c7_idempotent {T C : Type} (P : Polyglot T C) (fs : FS C)
    (ns name : String) (root : Path) (d1 d2 : T) (c : C)
    (hr : fs.configDir? = some root)
    (ht : pathExists fs (((root.join ns).join name).withExtension "toml") = false)
    (hj : pathExists fs (((root.join ns).join name).withExtension "json") = false)
    (hy : pathExists fs (((root.join ns).join name).withExtension "yml") = false)
    (hdir : fs.createDirErr (root.join ns) = none)
    (hfile : fs.createFileErr (((root.join ns).join name).withExtension "toml") = none)
    (hser : P.toWriter d1 Format.toml = Except.ok c)
    (ho : fs.openErr (((root.join ns).join name).withExtension "toml") = none)
    (hrt : P.fromReader c Format.toml = Except.ok d1)
    (hne : d2 ≠ d1) :
    (load_or_default P fs ns name d1).1 = Except.ok d1 ∧
    load_or_default P (load_or_default P fs ns name d1).2 ns name d2 =
      (Except.ok d1, (load_or_default P fs ns name d1).2) ∧
    (load_or_default P (load_or_default P fs ns name d1).2 ns name d2).1 ≠
      Except.ok d2 := by
  rw [lod_success P fs ns name root d1 c hr ht hj hy hdir hfile hser]
  have hfind := find_toml_of_exists
    (FS.write
      { fs with
        dirs := fun q => fs.dirs q || q.components.isPrefixOf (root.join ns).components,
        files := fun q =>
          if q = ((root.join ns).join name).withExtension "toml" then some fs.emptyFile
          else fs.files q }
      (((root.join ns).join name).withExtension "toml") c)
    ns name root (by simp [FS.write, hr]) (by simp [pathExists, FS.write])
  rw [lod_eq_of_find P _ ns name d2 _ _ hfind]
  have hdeser := deser_of_content P
    (FS.write
      { fs with
        dirs := fun q => fs.dirs q || q.components.isPrefixOf (root.join ns).components,
        files := fun q =>
          if q = ((root.join ns).join name).withExtension "toml" then some fs.emptyFile
          else fs.files q }
      (((root.join ns).join name).withExtension "toml") c)
    (((root.join ns).join name).withExtension "toml") Format.toml c d1
    (by simp [FS.write]) (by simp [FS.write, ho]) hrt
  rw [hdeser]
  exact ⟨rfl, rfl, fun heq => hne (Except.ok.inj heq.symm)⟩

/-- Witness for C7: writing default 5 then calling again with default 6
returns 5 and performs no writes. -/
theorem c7_idempotent_witness :
    (load_or_default polyW fsEmptyW "app" "conf" 5).1 = Except.ok 5 ∧
    load_or_default polyW (load_or_default polyW fsEmptyW "app" "conf" 5).2 "app" "conf" 6 =
      (Except.ok 5, (load_or_default polyW fsEmptyW "app" "conf" 5).2) := by
  have h := c7_idempotent polyW fsEmptyW "app" "conf" rootW 5 6 5 rfl
    (by decide) (by decide) (by decide) rfl rfl rfl rfl rfl (by decide)
  exact ⟨h.1, h.2.1⟩

theorem find_config_file_error_eq {C : Type} (fs : FS C) (ns name : String) (e : Error)
    (h : find_config_file fs ns name = Except.error e) :
    e = Error.unknownConfigDirectory := by
  unfold find_config_file at h
  cases hc : fs.configDir? with
  | none =>
    rw [hc] at h
    exact (Except.error.inj h).symm
  | some root =>
    rw [hc] at h
    by_cases h1 : pathExists fs (((root.join ns).join name).withExtension "toml") = true
    · simp [h1] at h
    · by_cases h2 : pathExists fs (((root.join ns).join name).withExtension "json") = true
      · simp [h1, h2] at h
      · by_cases h3 : pathExists fs (((root.join ns).join name).withExtension "yml") = true
        · simp [h1, h2, h3] at h
        · simp [h1, h2, h3] at h

theorem deser_ne_findfile {T C : Type} (P : Polyglot T C) (fs : FS C)
    (p : Path) (fmt : Format) :
    deser P fs p fmt ≠ Except.error Error.failedToFindConfigFile := by
  unfold deser
  cases h1 : fsOpen fs p with
  | error e => simp [h1]
  | ok c => cases h2 : P.fromReader c fmt <;> simp [h1, h2]

/-- C10: `load_or_default` never returns `FailedToFindConfigFile`: when no
config file is found it takes the default-writing path instead. -/
theorem c10_no_findfile_error {T C : Type} (P : Polyglot T C) (fs : FS C)
    (ns name : String) (d : T) :
    (load_or_default P fs ns name d).1 ≠ Except.error Error.failedToFindConfigFile := by
  unfold load_or_default
  cases hf : find_config_file fs ns name with
  | error e =>
    have he := find_config_file_error_eq fs ns name e hf
    subst he
    simp [hf]
  | ok o =>
    cases o with
    | some pf =>
      obtain ⟨file, fmt⟩ := pf
      have hd := deser_ne_findfile P fs file fmt
      simp [hf, hd]
    | none =>
      cases hc : fs.configDir? with
      | none => simp [hf, hc]
      | some config_dir =>
        cases hd : createDirAll fs (config_dir.join ns) with
        | error e => simp [hf, hc, hd]
        | ok fs1 =>
          cases hfc : fileCreate fs1 (((config_dir.join ns).join name).withExtension "toml") with
          | error e => simp [hf, hc, hd, hfc]
          | ok fs2 =>
            cases hw : P.toWriter d Format.toml <;> simp [hf, hc, hd, hfc, hw]

/-- C8: in the default-writing path the file is created before
serialization: when serialization fails, the call returns
`FailedToSerializeDefaultConfig` and the created (empty) file is left on
disk. -/
theorem c8_partial_file_on_serialize_failure {T C : Type} (P : Polyglot T C) (fs : FS C)
    (ns name : String) (root : Path) (d : T) (e : PolyglotError)
    (hr : fs.configDir? = some root)
    (ht : pathExists fs (((root.join ns).join name).withExtension "toml") = false)
    (hj : pathExists fs (((root.join ns).join name).withExtension "json") = false)
    (hy : pathExists fs (((root.join ns).join name).withExtension "yml") = false)
    (hdir : fs.createDirErr (root.join ns) = none)
    (hfile : fs.createFileErr (((root.join ns).join name).withExtension "toml") = none)
    (hser : P.toWriter d Format.toml = Except.error e) :
    (load_or_default P fs ns name d).1 =
      Except.error (Error.failedToSerializeDefaultConfig e) ∧
    (load_or_default P fs ns name d).2.files (((root.join ns).join name).withExtension "toml")
      = some fs.emptyFile := by
  unfold load_or_default
  rw [find_none_of_absent fs ns name root hr ht hj hy, hr]
  simp only [createDirAll, hdir, fileCreate, hfile, hser]
  exact ⟨by simp, by simp⟩

theorem extSplit_stem_lt {s : String} {stem aft : List Char}
    (h : extSplit s = some (stem, aft)) :
    stem.length < s.data.length := by
  simp only [extSplit] at h
  split_ifs at h with h1 h2
  have h3 := Option.some.inj h
  rw [Prod.mk.injEq] at h3
  obtain ⟨h4, h5⟩ := h3
  subst h4
  rw [List.length_take]
  omega

/-- C9: the `name` argument is a file stem whose extension is replaced,
not appended: for a `name` with an extension (a dot after a nonempty stem),
the TOML candidate of the locator and the default file created by
`load_or_default` are both `root/namespace/(stem ++ "." ++ "toml")`, where
`stem` is the part of `name` before its last dot — never
`name ++ ".toml"`. -/
theorem c9_extension_replaced {T C : Type} (P : Polyglot T C) (fs : FS C)
    (ns name : String) (root : Path) (stem aft : List Char) (d : T) (c : C)
    (hr : fs.configDir? = some root)
    (hsplit : extSplit name = some (stem, aft)) :
    ((root.join ns).join name).withExtension "toml"
      = (root.join ns).join (String.mk stem ++ "." ++ "toml") ∧
    String.mk stem ++ "." ++ "toml" ≠ name ++ ".toml" ∧
    (pathExists fs ((root.join ns).join (String.mk stem ++ "." ++ "toml")) = true →
      find_config_file fs ns name =
        Except.ok (some ((root.join ns).join (String.mk stem ++ "." ++ "toml"), Format.toml))) ∧
    (pathExists fs (((root.join ns).join name).withExtension "toml") = false →
      pathExists fs (((root.join ns).join name).withExtension "json") = false →
      pathExists fs (((root.join ns).join name).withExtension "yml") = false →
      fs.createDirErr (root.join ns) = none →
      fs.createFileErr ((root.join ns).join (String.mk stem ++ "." ++ "toml")) = none →
      P.toWriter d Format.toml = Except.ok c →
      (load_or_default P fs ns name d).2.files
        ((root.join ns).join (String.mk stem ++ "." ++ "toml")) = some c) := by
  have e1 : ((root.join ns).join name).withExtension "toml"
      = (root.join ns).join (String.mk stem ++ "." ++ "toml") := by
    simp [Path.withExtension, Path.join, List.getLast?_concat, List.dropLast_concat,
      strWithExtension, hsplit]
  have hlen := extSplit_stem_lt hsplit
  refine ⟨e1, ?_, ?_, ?_⟩
  · intro heq
    have hL := congrArg String.length heq
    rw [String.length_append, String.length_append, String.length_append] at hL
    have hm : (String.mk stem).length = stem.length := rfl
    have hname : name.length = name.data.length := rfl
    have hdot : ".".length = 1 := rfl
    have htoml : "toml".length = 4 := rfl
    have htoml5 : ".toml".length = 5 := rfl
    omega
  · intro hp
    have hf := find_toml_of_exists fs ns name root hr (by rw [e1]; exact hp)
    rw [e1] at hf
    exact hf
  · intro ht hj hy hdirE hfileE hser
    rw [lod_success P fs ns name root d c hr ht hj hy hdirE (by rw [e1]; exact hfileE) hser]
    rw [← e1]
    simp [FS.write]

/-- Witness for C9: for `name = "conf.cfg"`, the probed and created TOML
candidate is `cfg/app/conf.toml`, not `cfg/app/conf.cfg.toml`, and the
default-writing path writes there. -/
theorem c9_extension_replaced_witness :
    extSplit "conf.cfg" = some ("conf".data, "cfg".data) ∧
    ((rootW.join "app").join "conf.cfg").withExtension "toml"
      = (rootW.join "app").join (String.mk "conf".data ++ "." ++ "toml") ∧
    String.mk "conf".data ++ "." ++ "toml" ≠ "conf.cfg" ++ ".toml" ∧
    (load_or_default polyW fsEmptyW "app" "conf.cfg" 5).2.files
      ((rootW.join "app").join (String.mk "conf".data ++ "." ++ "toml")) = some 5 := by
  have h := c9_extension_replaced polyW fsEmptyW "app" "conf.cfg" rootW
    "conf".data "cfg".data 5 5 rfl (by decide)
  exact ⟨by decide, h.1, h.2.1,
    h.2.2.2 (by decide) (by decide) (by decide) rfl rfl rfl⟩

/-- Witness for C8: with the always-failing serializer, the call fails with
`FailedToSerializeDefaultConfig` and an empty `cfg/app/conf.toml` remains. -/
theorem c8_partial_file_on_serialize_failure_witness :
    (load_or_default polyFailW fsEmptyW "app" "conf" 5).1 =
      Except.error (Error.failedToSerializeDefaultConfig (PolyglotError.mk 3)) ∧
    (load_or_default polyFailW fsEmptyW "app" "conf" 5).2.files
      (((rootW.join "app").join "conf").withExtension "toml") = some fsEmptyW.emptyFile :=
  c8_partial_file_on_serialize_failure polyFailW fsEmptyW "app" "conf" rootW 5
    (PolyglotError.mk 3) rfl (by decide) (by decide) (by decide) rfl rfl rfl

end Cfgloader
